import Mathlib

/-
  Verification of the AgroForge desktop shell (packages/tauri-app/src-tauri/src/main.rs).

  The shell wires a CLI Process Supervisor (module cli_manager, whose source is not in
  the excerpt; its operations are modelled from the spec) to the GUI runtime:
  boot-time start on a background thread, UI commands cli_get_status / cli_restart,
  shutdown handlers on exit-requested and window-destroyed events, and a navigation
  guard deciding in-app vs external URL handling.

  Machine effects (process spawns, kill attempts, emitted events, external-open calls,
  log lines) are made explicit as extra components of each operation's return value, so
  that claims about "never kills twice", "start not attempted", "opener called exactly
  once" are statable.
-/

namespace AgroForge

/-- Lifecycle states of the CLI Process Supervisor (spec section 4.1). -/
inductive SupervisorState where
  | Stopped
  | Starting
  | Running
  | Stopping
  | Failed (reason : String)
deriving DecidableEq, Repr

/-- Launch metadata of one backend child process: the dev/production mode it was
launched with (spec section 3, ProcessHandle attributes). -/
structure ProcessHandle where
  mode : Bool
deriving DecidableEq, Repr

/-- The environment and operating-system inputs the shell reads: the build's
debug-assertions flag, presence of the TAURI_DEV environment variable, and the
outcomes the OS would give to a spawn attempt and to a kill/reap attempt
(none means success, some r means failure with reason r). -/
structure World where
  debugAssertions : Bool
  tauriDevSet : Bool
  spawnFails : Option String
  killFails : Option String
deriving DecidableEq, Repr

/-- Modelled from the spec: the CliProcessManager's shared mutable state (module
cli_manager is absent from the excerpt) — current lifecycle state, the tracked
process handle if any, and the last recorded error message. -/
structure ManagerState where
  lifecycle : SupervisorState
  handle : Option ProcessHandle
  lastError : Option String
deriving DecidableEq, Repr

/-- The initial manager state: Stopped, no tracked process, no error. -/
def ManagerState.init : ManagerState :=
  { lifecycle := SupervisorState.Stopped, handle := none, lastError := none }

/-- Immutable copy-out status snapshot returned to callers (spec section 3). -/
structure CliStatus where
  lifecycle : SupervisorState
  lastError : Option String
deriving DecidableEq, Repr

/-- Modelled from the spec: status() returns a StatusSnapshot, reading only the
status store, never blocking on process I/O. -/
def ManagerState.status (s : ManagerState) : CliStatus :=
  { lifecycle := s.lifecycle, lastError := s.lastError }

/-- Modelled from the spec: stop(). If no process is tracked, returns success
immediately (a no-op apart from settling the lifecycle at Stopped). Otherwise it
terminates and reaps the child, clears the handle and transitions to Stopped;
an OS-level kill/reap failure is converted to the error channel. The third
component counts termination attempts made against a tracked process. -/
def ManagerState.stop (w : World) (s : ManagerState) :
    Except String Unit × ManagerState × Nat :=
  match s.handle with
  | none => (Except.ok (), { s with lifecycle := SupervisorState.Stopped }, 0)
  | some _ =>
    match w.killFails with
    | some e => (Except.error e, s, 1)
    | none =>
      (Except.ok (),
        { s with lifecycle := SupervisorState.Stopped, handle := none }, 1)

/-- Modelled from the spec: start(handle, dev_mode). Precondition: state is
Stopped or Failed, otherwise an AlreadyRunning error with no spawn. On a spawn
attempt, success records a ProcessHandle carrying the launch mode and moves to
Running; failure moves to Failed with the captured reason. The third component
counts spawn attempts. -/
def ManagerState.start (w : World) (m : Bool) (s : ManagerState) :
    Except String Unit × ManagerState × Nat :=
  match s.lifecycle with
  | SupervisorState.Stopped =>
    match w.spawnFails with
    | some r =>
      (Except.error ("SpawnFailed: " ++ r),
        { s with lifecycle := SupervisorState.Failed r, lastError := some r }, 1)
    | none =>
      (Except.ok (),
        { lifecycle := SupervisorState.Running, handle := some { mode := m },
          lastError := s.lastError }, 1)
  | SupervisorState.Failed _ =>
    match w.spawnFails with
    | some r =>
      (Except.error ("SpawnFailed: " ++ r),
        { s with lifecycle := SupervisorState.Failed r, lastError := some r }, 1)
    | none =>
      (Except.ok (),
        { lifecycle := SupervisorState.Running, handle := some { mode := m },
          lastError := s.lastError }, 1)
  | _ => (Except.error "AlreadyRunning", s, 0)

/-- From main.rs: is_dev_mode() = cfg!(debug_assertions) || env::var("TAURI_DEV").is_ok(). -/
def is_dev_mode (w : World) : Bool :=
  w.debugAssertions || w.tauriDevSet

/-- From main.rs: the cli_get_status command returns state.manager.status(). -/
def cli_get_status (s : ManagerState) : CliStatus :=
  s.status

/-- Counts of operations performed during a restart request: how many times
stop and start were invoked, and the termination and spawn attempts they made. -/
structure RestartEffects where
  stopCalls : Nat
  startCalls : Nat
  kills : Nat
  spawns : Nat
deriving DecidableEq, Repr

/-- From main.rs, command cli_restart: computes dev_mode = is_dev_mode(), then
stop() (propagating its error as a string), then start(app, dev_mode)
(propagating its error as a string), then returns Ok(status()). -/
def cli_restart (w : World) (s : ManagerState) :
    Except String CliStatus × ManagerState × RestartEffects :=
  let dev_mode := is_dev_mode w
  match s.stop w with
  | (Except.error e, s1, k) => (Except.error e, s1, ⟨1, 0, k, 0⟩)
  | (Except.ok _, s1, k) =>
    match s1.start w dev_mode with
    | (Except.error e, s2, sp) => (Except.error e, s2, ⟨1, 1, k, sp⟩)
    | (Except.ok _, s2, sp) => (Except.ok s2.status, s2, ⟨1, 1, k, sp⟩)

/-- The spec's wording of restart (section 4.1 / 6): the sequential composition
of stop(), then start() with dev_mode m, returning the resulting status. -/
def restart_spec (w : World) (m : Bool) (s : ManagerState) :
    Except String CliStatus × ManagerState × RestartEffects :=
  match s.stop w with
  | (Except.error e, s1, k) => (Except.error e, s1, ⟨1, 0, k, 0⟩)
  | (Except.ok _, s1, k) =>
    match s1.start w m with
    | (Except.error e, s2, sp) => (Except.error e, s2, ⟨1, 1, k, sp⟩)
    | (Except.ok _, s2, sp) => (Except.ok s2.status, s2, ⟨1, 1, k, sp⟩)

/-- An application-level event emitted through the app handle. -/
structure Emitted where
  event : String
  message : String
deriving DecidableEq, Repr

/-- From main.rs, the setup closure's background thread: calls
manager.start(app_handle, dev_mode) with dev_mode = is_dev_mode(); on Err(err)
emits the "cli:error" event carrying err.to_string(); the thread returns
nothing, so the boot path never observes the error as a return value. -/
def boot_thread (w : World) (s : ManagerState) : ManagerState × List Emitted :=
  let dev_mode := is_dev_mode w
  match s.start w dev_mode with
  | (Except.error e, s1, _) => (s1, [{ event := "cli:error", message := e }])
  | (Except.ok _, s1, _) => (s1, [])

/-- From main.rs, the RunEvent::ExitRequested handler: spawns a thread that
calls state.manager.stop() discarding its result, then app.exit(0). The Bool
component records that exit(0) was requested. -/
def exit_requested_handler (w : World) (s : ManagerState) : ManagerState × Bool :=
  ((s.stop w).2.1, true)

/-- From main.rs, the WindowEvent::Destroyed handler: if
app_handle.webview_windows().len() <= 1, spawns a thread that calls
state.manager.stop() discarding its result, then app.exit(0); otherwise does
nothing (modelled as none). n is the number of webview windows still listed
at the moment the event is handled. -/
def window_destroyed_handler (w : World) (n : Nat) (s : ManagerState) :
    Option (ManagerState × Bool) :=
  if n ≤ 1 then some ((s.stop w).2.1, true) else none

/-- A requested URL as the guard observes it: its scheme, its host if any
(url.host_str()), and its full textual form (url.as_str()). -/
structure Url where
  scheme : String
  host : Option String
  asStr : String
deriving DecidableEq, Repr

/-- From main.rs: should_allow_internal matches the scheme; tauri, asset and
file are allowed; http and https are allowed exactly when host_str() is
Some("127.0.0.1") or Some("localhost"); every other scheme is denied. -/
def should_allow_internal (u : Url) : Bool :=
  if u.scheme = "tauri" ∨ u.scheme = "asset" ∨ u.scheme = "file" then
    true
  else if u.scheme = "http" ∨ u.scheme = "https" then
    match u.host with
    | some h => decide (h = "127.0.0.1" ∨ h = "localhost")
    | none => false
  else
    false

/-- From main.rs: intercept_navigation returns true when should_allow_internal
allows the URL; otherwise it calls opener().open_url(url.as_str()) once, logs a
line on Err, and returns false. openResult is the outcome the platform opener
would give. Components: (allow decision, open_url call count, log lines). -/
def intercept_navigation (openResult : Except String Unit) (u : Url) :
    Bool × Nat × List String :=
  if should_allow_internal u then
    (true, 0, [])
  else
    match openResult with
    | Except.error err =>
      (false, 1, ["[tauri] failed to open external link " ++ u.asStr ++ ": " ++ err])
    | Except.ok _ => (false, 1, [])

/-- A world with the debug flag and TAURI_DEV unset where the kill/reap attempt
made by stop() fails at the OS level. -/
def killFailWorld : World :=
  World.mk false false none (some "kill failed")

/-- A manager state with a running tracked backend process launched in
production mode. -/
def runningState : ManagerState :=
  { lifecycle := SupervisorState.Running, handle := some { mode := false },
    lastError := none }

/- ------------------------------------------------------------------ -/
/- Theorems                                                            -/
/- ------------------------------------------------------------------ -/

/-- C1: the UI-exposed restart operation is equivalent to the sequential
composition stop() then start() with the same dev_mode, returning the
resulting status snapshot: for every world and every manager state,
cli_restart coincides (result, resulting state, and effects) with
restart_spec at the dev_mode computed by is_dev_mode, covering both the
success branch and every failure branch. -/
theorem cli_restart_refines_stop_start_status (w : World) (s : ManagerState) :
    cli_restart w s = restart_spec w (is_dev_mode w) s := by
  rfl

/-- C1 witness: the refinement instantiated at a concrete world and state. -/
theorem cli_restart_refines_stop_start_status_witness :
    cli_restart (World.mk true false none none) ManagerState.init =
      restart_spec (World.mk true false none none)
        (is_dev_mode (World.mk true false none none)) ManagerState.init :=
  cli_restart_refines_stop_start_status (World.mk true false none none)
    ManagerState.init

/-- C2 (supervisor modelled from the spec): stop() is idempotent. When the
manager is already Stopped with no tracked process, stop() returns success,
leaves the state unchanged and makes no termination attempt; after any
successful stop(), a second stop() returns success, is a no-op and makes no
termination attempt; and a single stop() never makes more than one
termination attempt, so two stops in a row never terminate a process twice. -/
theorem stop_idempotent (w : World) (s : ManagerState) :
    (s.lifecycle = SupervisorState.Stopped → s.handle = none →
      s.stop w = (Except.ok (), s, 0)) ∧
    (∀ s1 : ManagerState, ∀ k : Nat, s.stop w = (Except.ok (), s1, k) →
      s1.stop w = (Except.ok (), s1, 0) ∧ k ≤ 1) := by
  constructor
  · intro hl hh
    cases s with
    | mk lifecycle handle lastError =>
      simp only at hl hh
      subst hl; subst hh
      simp [ManagerState.stop]
  · intro s1 k h
    cases s with
    | mk lifecycle handle lastError =>
      cases handle with
      | none =>
        simp [ManagerState.stop] at h
        obtain ⟨h1, h2⟩ := h
        subst h1; subst h2
        simp [ManagerState.stop]
      | some p =>
        cases hk : w.killFails with
        | none =>
          simp [ManagerState.stop, hk] at h
          obtain ⟨h1, h2⟩ := h
          subst h1; subst h2
          simp [ManagerState.stop]
        | some e =>
          simp [ManagerState.stop, hk] at h

/-- C2 witness: stop() on the initial (Stopped, no handle) state is a no-op
success with zero termination attempts, and a second stop right after it is a
no-op success with zero termination attempts as well. -/
theorem stop_idempotent_witness :
    ManagerState.init.stop (World.mk false false none none) =
      (Except.ok (), ManagerState.init, 0) ∧
    (ManagerState.init.stop (World.mk false false none none) =
      (Except.ok (), ManagerState.init, 0) ∧ (0 : Nat) ≤ 1) :=
  ⟨(stop_idempotent (World.mk false false none none) ManagerState.init).1 rfl rfl,
   (stop_idempotent (World.mk false false none none) ManagerState.init).2
     ManagerState.init 0
     ((stop_idempotent (World.mk false false none none) ManagerState.init).1
       rfl rfl)⟩

/-- C3 counterexample: the claim that every restart launches the backend with
the dev_mode value computed at boot, for every change of environment between
boot and restart, is false. With the debug flag unset at both times, TAURI_DEV
absent at boot and present at restart, boot computed dev_mode = false, yet
cli_restart from the initial state succeeds and records a ProcessHandle
launched with mode = true. -/
theorem restart_boot_mode_counterexample :
    ¬ (∀ wBoot wRestart : World,
        wBoot.debugAssertions = wRestart.debugAssertions →
        (cli_restart wRestart ManagerState.init).2.1.handle =
          some { mode := is_dev_mode wBoot }) := by
  intro h
  have h2 := h (World.mk false false none none) (World.mk false true none none) rfl
  simp [cli_restart, restart_spec, ManagerState.stop, ManagerState.start,
    ManagerState.init, is_dev_mode] at h2

/-- C3 amended: dev-mode is re-evaluated at each restart — cli_restart launches
the backend with the value of is_dev_mode at restart time; this coincides with
the boot-time value exactly when is_dev_mode's inputs (the debug flag and the
presence of TAURI_DEV) are unchanged between boot and restart. Stated for every
restart that reaches a successful spawn. -/
theorem restart_mode_reevaluated (wBoot wRestart : World) (s : ManagerState)
    (hspawn : wRestart.spawnFails = none)
    (hstop : wRestart.killFails = none ∨ s.handle = none) :
    (cli_restart wRestart s).2.1.handle = some { mode := is_dev_mode wRestart } ∧
    (wBoot.debugAssertions = wRestart.debugAssertions →
      wBoot.tauriDevSet = wRestart.tauriDevSet →
      is_dev_mode wRestart = is_dev_mode wBoot) := by
  constructor
  · cases s with
    | mk lifecycle handle lastError =>
      cases handle with
      | none =>
        simp [cli_restart, ManagerState.stop, ManagerState.start, hspawn]
      | some p =>
        rcases hstop with hk | hh
        · simp [cli_restart, ManagerState.stop, ManagerState.start, hk, hspawn]
        · simp at hh
  · intro hd he
    simp [is_dev_mode, hd, he]

/-- C3 amended witness: with an unchanged environment (TAURI_DEV present at
both times, debug flag unset), a restart from the initial state launches with
mode true and is_dev_mode agrees between boot and restart. -/
theorem restart_mode_reevaluated_witness :
    (cli_restart (World.mk false true none none) ManagerState.init).2.1.handle =
      some { mode := is_dev_mode (World.mk false true none none) } ∧
    is_dev_mode (World.mk false true none none) =
      is_dev_mode (World.mk false true none none) :=
  ⟨(restart_mode_reevaluated (World.mk false true none none)
      (World.mk false true none none) ManagerState.init rfl (Or.inl rfl)).1,
   (restart_mode_reevaluated (World.mk false true none none)
      (World.mk false true none none) ManagerState.init rfl (Or.inl rfl)).2
     rfl rfl⟩

/-- C4: the dev-mode predicate returns true exactly when the build's
debug-assertions flag is set or the TAURI_DEV environment override is present,
for every combination of the two inputs. -/
theorem is_dev_mode_spec (w : World) :
    is_dev_mode w = true ↔
      (w.debugAssertions = true ∨ w.tauriDevSet = true) := by
  simp [is_dev_mode]

/-- C5: the boot-time start call made on the setup background thread reports a
failure via the asynchronous "cli:error" application event carrying the error
message as a string, and emits nothing on success; in either case the thread
returns only the resulting manager state, never the error as a return value. -/
theorem boot_failure_emits_event (w : World) (s : ManagerState) :
    (∀ e : String, ∀ s1 : ManagerState, ∀ sp : Nat,
      s.start w (is_dev_mode w) = (Except.error e, s1, sp) →
      boot_thread w s = (s1, [{ event := "cli:error", message := e }])) ∧
    (∀ s1 : ManagerState, ∀ sp : Nat,
      s.start w (is_dev_mode w) = (Except.ok (), s1, sp) →
      boot_thread w s = (s1, [])) := by
  constructor
  · intro e s1 sp h
    simp [boot_thread, h]
  · intro s1 sp h
    simp [boot_thread, h]

/-- C5 witness: with a failing spawn, boot from the initial state emits exactly
one "cli:error" event carrying the spawn error message. -/
theorem boot_failure_emits_event_witness :
    boot_thread (World.mk false false (some "missing binary") none)
        ManagerState.init =
      ({ lifecycle := SupervisorState.Failed "missing binary", handle := none,
         lastError := some "missing binary" },
       [{ event := "cli:error", message := "SpawnFailed: missing binary" }]) :=
  (boot_failure_emits_event (World.mk false false (some "missing binary") none)
      ManagerState.init).1
    "SpawnFailed: missing binary"
    { lifecycle := SupervisorState.Failed "missing binary", handle := none,
      lastError := some "missing binary" }
    1 rfl

/-- C6: a UI-triggered restart failure surfaces synchronously as the request's
error result. If stop() fails, cli_restart returns that error and start() is
not invoked (startCalls = 0; no spawn attempt); if stop() succeeds and start()
fails, cli_restart returns start's error; only when both succeed does
cli_restart return Ok with the current status snapshot. -/
theorem cli_restart_error_paths (w : World) (s : ManagerState) :
    (∀ e : String, ∀ s1 : ManagerState, ∀ k : Nat,
      s.stop w = (Except.error e, s1, k) →
      cli_restart w s =
        (Except.error e, s1,
          { stopCalls := 1, startCalls := 0, kills := k, spawns := 0 })) ∧
    (∀ s1 : ManagerState, ∀ k : Nat, ∀ e : String, ∀ s2 : ManagerState, ∀ sp : Nat,
      s.stop w = (Except.ok (), s1, k) →
      s1.start w (is_dev_mode w) = (Except.error e, s2, sp) →
      cli_restart w s =
        (Except.error e, s2,
          { stopCalls := 1, startCalls := 1, kills := k, spawns := sp })) ∧
    (∀ s1 : ManagerState, ∀ k : Nat, ∀ s2 : ManagerState, ∀ sp : Nat,
      s.stop w = (Except.ok (), s1, k) →
      s1.start w (is_dev_mode w) = (Except.ok (), s2, sp) →
      cli_restart w s =
        (Except.ok s2.status, s2,
          { stopCalls := 1, startCalls := 1, kills := k, spawns := sp })) := by
  refine ⟨?_, ?_, ?_⟩
  · intro e s1 k h
    simp [cli_restart, h]
  · intro s1 k e s2 sp h1 h2
    simp [cli_restart, h1, h2]
  · intro s1 k s2 sp h1 h2
    simp [cli_restart, h1, h2]

/-- C6 witness: with a running tracked process and a failing kill, stop fails
inside cli_restart and the request returns that error with start not invoked. -/
theorem cli_restart_error_paths_witness :
    cli_restart killFailWorld runningState =
      (Except.error "kill failed", runningState,
        { stopCalls := 1, startCalls := 0, kills := 1, spawns := 0 }) :=
  (cli_restart_error_paths killFailWorld runningState).1
    "kill failed" runningState 1 rfl

/-- C7: on both shutdown triggers — exit-requested and last-window-destroyed —
the shell invokes the supervisor's stop() and discards any error it returns:
the handler's outcome is exactly the post-stop state together with the exit
request, for every world and state, and in particular is unchanged when stop()
returns an error, so a shutdown-path stop failure never propagates or aborts
application exit. -/
theorem shutdown_swallows_stop_errors (w : World) (s : ManagerState) :
    exit_requested_handler w s = ((s.stop w).2.1, true) ∧
    (∀ n : Nat, n ≤ 1 → window_destroyed_handler w n s = some ((s.stop w).2.1, true)) ∧
    (∀ e : String, (s.stop w).1 = Except.error e →
      exit_requested_handler w s = ((s.stop w).2.1, true) ∧
      window_destroyed_handler w 1 s = some ((s.stop w).2.1, true)) := by
  refine ⟨rfl, ?_, ?_⟩
  · intro n hn
    simp [window_destroyed_handler, hn]
  · intro e _
    exact ⟨rfl, by simp [window_destroyed_handler]⟩

/-- C7 witness: with a tracked process and a failing kill, stop() errors, yet
both shutdown handlers still produce the post-stop state and request exit. -/
theorem shutdown_swallows_stop_errors_witness :
    exit_requested_handler killFailWorld runningState =
      ((runningState.stop killFailWorld).2.1, true) ∧
    window_destroyed_handler killFailWorld 1 runningState =
      some ((runningState.stop killFailWorld).2.1, true) :=
  (shutdown_swallows_stop_errors killFailWorld runningState).2.2
    "kill failed" rfl

/-- C8: the navigation guard allows a URL exactly when its scheme is one of the
internal schemes tauri, asset, file, or its scheme is http or https with host
exactly 127.0.0.1 or localhost; in particular https with host localhost (as in
https://localhost:5173/) is allowed and https://example.com is denied. -/
theorem should_allow_internal_spec :
    (∀ u : Url, should_allow_internal u = true ↔
      (u.scheme = "tauri" ∨ u.scheme = "asset" ∨ u.scheme = "file" ∨
        ((u.scheme = "http" ∨ u.scheme = "https") ∧
          (u.host = some "127.0.0.1" ∨ u.host = some "localhost")))) ∧
    should_allow_internal
      { scheme := "https", host := some "localhost",
        asStr := "https://localhost:5173/" } = true ∧
    should_allow_internal
      { scheme := "https", host := some "example.com",
        asStr := "https://example.com" } = false := by
  refine ⟨?_, by decide, by decide⟩
  intro u
  rcases u with ⟨scheme, host, asStr⟩
  simp only [should_allow_internal]
  by_cases h1 : scheme = "tauri" ∨ scheme = "asset" ∨ scheme = "file"
  · simp only [h1, if_true]
    simp
    tauto
  · simp only [h1, if_false]
    by_cases h2 : scheme = "http" ∨ scheme = "https"
    · simp only [h2, if_true]
      cases host with
      | none =>
        simp
        tauto
      | some h =>
        simp
        tauto
    · simp only [h2, if_false]
      simp
      tauto

/-- C9: for every URL the guard denies, the interception handler calls the
platform opener exactly once and returns deny (false) whether or not the open
succeeds; an opener failure is only logged (one log line carrying the URL and
the error) and a success logs nothing — in neither case does it change the
decision or raise an error. -/
theorem intercept_navigation_denied (u : Url) (r : Except String Unit)
    (h : should_allow_internal u = false) :
    (intercept_navigation r u).1 = false ∧
    (intercept_navigation r u).2.1 = 1 ∧
    (r = Except.ok () → (intercept_navigation r u).2.2 = []) ∧
    (∀ e : String, r = Except.error e →
      (intercept_navigation r u).2.2 =
        ["[tauri] failed to open external link " ++ u.asStr ++ ": " ++ e]) := by
  cases r with
  | ok v =>
    refine ⟨?_, ?_, ?_, ?_⟩
    · simp [intercept_navigation, h]
    · simp [intercept_navigation, h]
    · intro _
      simp [intercept_navigation, h]
    · intro e he
      simp at he
  | error e0 =>
    refine ⟨?_, ?_, ?_, ?_⟩
    · simp [intercept_navigation, h]
    · simp [intercept_navigation, h]
    · intro he
      simp at he
    · intro e he
      simp only [Except.error.injEq] at he
      subst he
      simp [intercept_navigation, h]

/-- C9 witness: https://example.com is denied; with a failing opener the
handler still returns false, calls the opener once and logs one line. -/
theorem intercept_navigation_denied_witness :
    (intercept_navigation (Except.error "no handler")
        { scheme := "https", host := some "example.com",
          asStr := "https://example.com" }).1 = false ∧
    (intercept_navigation (Except.error "no handler")
        { scheme := "https", host := some "example.com",
          asStr := "https://example.com" }).2.1 = 1 ∧
    (intercept_navigation (Except.error "no handler")
        { scheme := "https", host := some "example.com",
          asStr := "https://example.com" }).2.2 =
      ["[tauri] failed to open external link " ++ "https://example.com" ++
        ": " ++ "no handler"] :=
  ⟨(intercept_navigation_denied
      { scheme := "https", host := some "example.com",
        asStr := "https://example.com" }
      (Except.error "no handler") (by decide)).1,
   (intercept_navigation_denied
      { scheme := "https", host := some "example.com",
        asStr := "https://example.com" }
      (Except.error "no handler") (by decide)).2.1,
   (intercept_navigation_denied
      { scheme := "https", host := some "example.com",
        asStr := "https://example.com" }
      (Except.error "no handler") (by decide)).2.2.2 "no handler" rfl⟩

/-- C10: the window-destroyed shutdown path fires exactly when the number of
webview windows still listed at the moment the Destroyed event is handled is
at most one: for n ≤ 1 the handler invokes stop() and requests exit, and for
n ≥ 2 it does nothing — no stop() is invoked and the application does not
exit. -/
theorem window_destroyed_threshold (w : World) (s : ManagerState) (n : Nat) :
    ((window_destroyed_handler w n s).isSome ↔ n ≤ 1) ∧
    (n ≤ 1 → window_destroyed_handler w n s = some ((s.stop w).2.1, true)) ∧
    (2 ≤ n → window_destroyed_handler w n s = none) := by
  refine ⟨?_, ?_, ?_⟩
  · constructor
    · intro hs
      by_contra hn
      simp [window_destroyed_handler, hn] at hs
    · intro hn
      simp [window_destroyed_handler, hn]
  · intro hn
    simp [window_destroyed_handler, hn]
  · intro hn
    have hn2 : ¬ n ≤ 1 := by omega
    simp [window_destroyed_handler, hn2]

/-- C10 witness: with one window still listed the handler stops the backend and
requests exit; with two windows still listed the handler does nothing. -/
theorem window_destroyed_threshold_witness :
    window_destroyed_handler (World.mk false false none none) 1
        ManagerState.init =
      some ((ManagerState.init.stop (World.mk false false none none)).2.1,
        true) ∧
    window_destroyed_handler (World.mk false false none none) 2
        ManagerState.init = none :=
  ⟨(window_destroyed_threshold (World.mk false false none none)
      ManagerState.init 1).2.1 (by decide),
   (window_destroyed_threshold (World.mk false false none none)
      ManagerState.init 2).2.2 (by decide)⟩

end AgroForge
